import Mathlib

/-!
Verification of the Hunt Pro exterior-ballistics core against its
natural-language specification.

The development shallowly embeds the relevant parts of `src/ballistics.py`,
`src/migrations.py` and the adaptive advisor into Lean:

* pure numeric code over exact rationals (`ℚ`) where the computation is
  algebraic (drag-table interpolation, MPBR scan, come-up conversion,
  storage and migration logic), and over `ℝ` where the source uses
  transcendental functions (trajectory integration);
* the profile store's on-disk state as an explicit record of the store
  file's content plus the backup directory, threaded through each
  operation;
* Python exceptions as `Except` values; the process clock as an explicit
  `now : String` argument.
-/

namespace HuntPro

/-- Drag model types for ballistics calculations (`DragModel` enum). -/
inductive DragModel
  | g1
  | g7
  | custom
deriving DecidableEq, Repr

/-- The G1 drag table from `BallisticsCalculator._load_drag_tables`,
as exact `(mach, coefficient)` pairs. -/
def g1_table : List (ℚ × ℚ) :=
  [(0.0, 0.2629), (0.05, 0.2558), (0.10, 0.2487), (0.15, 0.2413),
   (0.20, 0.2344), (0.25, 0.2278), (0.30, 0.2214), (0.35, 0.2155),
   (0.40, 0.2104), (0.45, 0.2061), (0.50, 0.2032), (0.55, 0.2020),
   (0.60, 0.2034), (0.65, 0.2165), (0.70, 0.2230), (0.75, 0.2313),
   (0.80, 0.2417), (0.85, 0.2546), (0.90, 0.2706), (0.95, 0.2901),
   (1.00, 0.3136), (1.05, 0.3415), (1.10, 0.3734), (1.15, 0.4084),
   (1.20, 0.4448), (1.25, 0.4805), (1.30, 0.5136), (1.35, 0.5427),
   (1.40, 0.5677), (1.45, 0.5883), (1.50, 0.6053), (1.55, 0.6191),
   (1.60, 0.6393), (1.65, 0.6518), (1.70, 0.6589), (1.75, 0.6621),
   (1.80, 0.6625), (1.85, 0.6607), (1.90, 0.6573), (1.95, 0.6528),
   (2.00, 0.6474), (2.05, 0.6413), (2.10, 0.6347), (2.15, 0.6280),
   (2.20, 0.6210), (2.25, 0.6141), (2.30, 0.6072), (2.35, 0.6003),
   (2.40, 0.5934), (2.45, 0.5867), (2.50, 0.5804), (2.60, 0.5680),
   (2.70, 0.5571), (2.80, 0.5479), (2.90, 0.5402), (3.00, 0.5337),
   (3.20, 0.5240), (3.40, 0.5178), (3.60, 0.5135), (3.80, 0.5101),
   (4.00, 0.5076), (4.20, 0.5055), (4.40, 0.5040), (4.60, 0.5030),
   (4.80, 0.5022), (5.00, 0.5016)]

/-- The G7 drag table from `BallisticsCalculator._load_drag_tables`. -/
def g7_table : List (ℚ × ℚ) :=
  [(0.0, 0.1198), (0.05, 0.1197), (0.10, 0.1196), (0.15, 0.1194),
   (0.20, 0.1193), (0.25, 0.1194), (0.30, 0.1194), (0.35, 0.1194),
   (0.40, 0.1193), (0.45, 0.1193), (0.50, 0.1194), (0.55, 0.1193),
   (0.60, 0.1196), (0.65, 0.1197), (0.70, 0.1205), (0.75, 0.1230),
   (0.80, 0.1290), (0.85, 0.1380), (0.90, 0.1510), (0.95, 0.1705),
   (1.00, 0.2000), (1.05, 0.2380), (1.10, 0.2830), (1.15, 0.3315),
   (1.20, 0.3803), (1.25, 0.4262), (1.30, 0.4680), (1.35, 0.5050),
   (1.40, 0.5365), (1.45, 0.5620), (1.50, 0.5820), (1.55, 0.5980),
   (1.60, 0.6110), (1.65, 0.6210), (1.70, 0.6290), (1.75, 0.6350),
   (1.80, 0.6390), (1.85, 0.6420), (1.90, 0.6440), (1.95, 0.6450),
   (2.00, 0.6450), (2.05, 0.6447), (2.10, 0.6440), (2.15, 0.6430),
   (2.20, 0.6420), (2.25, 0.6410), (2.30, 0.6395), (2.35, 0.6380),
   (2.40, 0.6360), (2.45, 0.6340), (2.50, 0.6315), (2.60, 0.6265),
   (2.70, 0.6210), (2.80, 0.6155), (2.90, 0.6095), (3.00, 0.6035),
   (3.20, 0.5910), (3.40, 0.5790), (3.60, 0.5680), (3.80, 0.5570),
   (4.00, 0.5470), (4.20, 0.5375), (4.40, 0.5285), (4.60, 0.5200),
   (4.80, 0.5120), (5.00, 0.5040)]

/-- Table selection `self.drag_tables.get(drag_model.value, self.drag_tables["G1"])`:
"G7" hits the G7 table, every other key falls back to G1. -/
def dragTable : DragModel → List (ℚ × ℚ)
  | DragModel.g7 => g7_table
  | _ => g1_table

/-- Linear interpolation between two table points, exactly
`y0 + (y1 - y0) * (mach - x0) / (x1 - x0)`. -/
def linInterp (p0 p1 : ℚ × ℚ) (mach : ℚ) : ℚ :=
  p0.2 + (p1.2 - p0.2) * (mach - p0.1) / (p1.1 - p0.1)

/-- The bracket-search loop of `get_drag_coefficient`: scan consecutive
pairs, return the interpolation at the first bracketing pair, with the
source's `0.5` fallback when no pair brackets. -/
def interpScan : List (ℚ × ℚ) → ℚ → ℚ
  | p0 :: p1 :: rest, mach =>
      if p0.1 ≤ mach ∧ mach ≤ p1.1 then linInterp p0 p1 mach
      else interpScan (p1 :: rest) mach
  | _, _ => 0.5

/-- Embedding of `BallisticsCalculator.get_drag_coefficient`. -/
def get_drag_coefficient (mach : ℚ) (drag_model : DragModel) : ℚ :=
  if drag_model = DragModel.custom then 0.5
  else
    let table := dragTable drag_model
    if mach ≤ (table.headD (0, 0)).1 then (table.headD (0, 0)).2
    else if (table.getLastD (0, 0)).1 ≤ mach then (table.getLastD (0, 0)).2
    else interpScan table mach

/-- On a table whose Mach abscissae strictly increase, the bracket-search
loop returns the linear interpolation at any bracketing pair of
consecutive entries. -/
theorem interpScan_bracket :
    ∀ (l : List (ℚ × ℚ)) (mach : ℚ), l.Pairwise (fun a b => a.1 < b.1) →
      ∀ (j : ℕ) (hj : j + 1 < l.length),
        (l.get ⟨j, Nat.lt_of_succ_lt hj⟩).1 ≤ mach →
        mach ≤ (l.get ⟨j + 1, hj⟩).1 →
        interpScan l mach =
          linInterp (l.get ⟨j, Nat.lt_of_succ_lt hj⟩) (l.get ⟨j + 1, hj⟩) mach := by
  intro l
  induction l with
  | nil => intro mach _ j hj; simp at hj
  | cons p0 t ih =>
    intro mach hp j hj h1 h2
    cases t with
    | nil => simp at hj
    | cons p1 rest =>
      obtain ⟨hp0, hpt⟩ := List.pairwise_cons.mp hp
      cases j with
      | zero =>
        simp only [List.get] at h1 h2 ⊢
        rw [interpScan, if_pos ⟨h1, h2⟩]
      | succ k =>
        simp only [List.get_cons_succ, List.get_cons_zero] at h1 h2 ⊢
        by_cases hc : p0.1 ≤ mach ∧ mach ≤ p1.1
        · -- the head pair already brackets; this forces `mach` to sit on the
          -- shared grid point `p1.1`, where both interpolations agree.
          cases k with
          | zero =>
            have hmach : mach = p1.1 := le_antisymm hc.2 h1
            have hlt : p0.1 < p1.1 := hp0 p1 (List.mem_cons_self _ _)
            have hne : p1.1 - p0.1 ≠ 0 := sub_ne_zero.mpr (ne_of_gt hlt)
            rw [interpScan, if_pos hc]
            simp only [linInterp, List.get, hmach]
            rw [sub_self, mul_zero, zero_div, add_zero, mul_div_assoc,
              div_self hne, mul_one]
            ring
          | succ m =>
            exfalso
            have hlen : m + 1 < (p1 :: rest).length := by
              simp only [List.length_cons] at hj ⊢; omega
            have hm1 := (List.pairwise_iff_get.mp hpt) ⟨0, by simp⟩
              ⟨m + 1, hlen⟩ (by simp [Fin.lt_def])
            have hm1' : p1.1 < ((p1 :: rest).get ⟨m + 1, hlen⟩).1 := by
              simpa using hm1
            have h1' : ((p1 :: rest).get ⟨m + 1, hlen⟩).1 ≤ mach := h1
            exact absurd (le_trans h1' hc.2) (not_le.mpr hm1')
        · rw [interpScan, if_neg hc]
          exact ih mach hpt k (by simp only [List.length_cons] at hj ⊢; omega) h1 h2

/-- The G1 table's Mach abscissae strictly increase. -/
theorem g1_table_strictMono : g1_table.Pairwise (fun a b => a.1 < b.1) := by
  have h : g1_table.Chain' (fun a b => a.1 < b.1) := by
    unfold g1_table
    simp only [List.chain'_cons, List.chain'_singleton, and_true]
    norm_num
  haveI : IsTrans (ℚ × ℚ) (fun a b => a.1 < b.1) :=
    ⟨fun _ _ _ h1 h2 => lt_trans h1 h2⟩
  exact List.chain'_iff_pairwise.mp h

/-- The G7 table's Mach abscissae strictly increase. -/
theorem g7_table_strictMono : g7_table.Pairwise (fun a b => a.1 < b.1) := by
  have h : g7_table.Chain' (fun a b => a.1 < b.1) := by
    unfold g7_table
    simp only [List.chain'_cons, List.chain'_singleton, and_true]
    norm_num
  haveI : IsTrans (ℚ × ℚ) (fun a b => a.1 < b.1) :=
    ⟨fun _ _ _ h1 h2 => lt_trans h1 h2⟩
  exact List.chain'_iff_pairwise.mp h

/-- Clamping and interpolation behaviour of `get_drag_coefficient` over any
drag table with strictly increasing Mach values and min below max. -/
theorem drag_spec_aux (dm : DragModel) (hdm : ¬ dm = DragModel.custom) (mach : ℚ)
    (hpw : (dragTable dm).Pairwise (fun a b => a.1 < b.1))
    (hhl : ((dragTable dm).headD (0, 0)).1 < ((dragTable dm).getLastD (0, 0)).1) :
    (mach ≤ ((dragTable dm).headD (0, 0)).1 →
      get_drag_coefficient mach dm = ((dragTable dm).headD (0, 0)).2)
    ∧ (((dragTable dm).getLastD (0, 0)).1 ≤ mach →
      get_drag_coefficient mach dm = ((dragTable dm).getLastD (0, 0)).2)
    ∧ (((dragTable dm).headD (0, 0)).1 < mach →
       mach < ((dragTable dm).getLastD (0, 0)).1 →
       ∀ (j : ℕ) (hj : j + 1 < (dragTable dm).length),
         ((dragTable dm).get ⟨j, Nat.lt_of_succ_lt hj⟩).1 ≤ mach →
         mach ≤ ((dragTable dm).get ⟨j + 1, hj⟩).1 →
         get_drag_coefficient mach dm =
           linInterp ((dragTable dm).get ⟨j, Nat.lt_of_succ_lt hj⟩)
             ((dragTable dm).get ⟨j + 1, hj⟩) mach) := by
  refine ⟨?_, ?_, ?_⟩
  · intro h
    simp only [get_drag_coefficient, if_neg hdm]
    rw [if_pos h]
  · intro h
    simp only [get_drag_coefficient, if_neg hdm]
    rw [if_neg (not_le.mpr (lt_of_lt_of_le hhl h)), if_pos h]
  · intro hlo hhi j hj hbl hbr
    simp only [get_drag_coefficient, if_neg hdm]
    rw [if_neg (not_le.mpr hlo), if_neg (not_le.mpr hhi)]
    exact interpScan_bracket _ mach hpw j hj hbl hbr

/-- C3: `get_drag_coefficient` returns the fixed default 0.5 for the Custom
drag model; for G1 and G7 it clamps to the first table coefficient at or
below the minimum Mach, clamps to the last coefficient at or above the
maximum Mach, and otherwise linearly interpolates between the two
bracketing table entries. -/
theorem drag_coefficient_clamps_and_interpolates (mach : ℚ) :
    get_drag_coefficient mach DragModel.custom = 0.5
    ∧ ∀ dm : DragModel, dm ≠ DragModel.custom →
        (mach ≤ ((dragTable dm).headD (0, 0)).1 →
          get_drag_coefficient mach dm = ((dragTable dm).headD (0, 0)).2)
        ∧ (((dragTable dm).getLastD (0, 0)).1 ≤ mach →
          get_drag_coefficient mach dm = ((dragTable dm).getLastD (0, 0)).2)
        ∧ (((dragTable dm).headD (0, 0)).1 < mach →
           mach < ((dragTable dm).getLastD (0, 0)).1 →
           ∀ (j : ℕ) (hj : j + 1 < (dragTable dm).length),
             ((dragTable dm).get ⟨j, Nat.lt_of_succ_lt hj⟩).1 ≤ mach →
             mach ≤ ((dragTable dm).get ⟨j + 1, hj⟩).1 →
             get_drag_coefficient mach dm =
               linInterp ((dragTable dm).get ⟨j, Nat.lt_of_succ_lt hj⟩)
                 ((dragTable dm).get ⟨j + 1, hj⟩) mach) := by
  constructor
  · rfl
  · intro dm hdm
    cases dm with
    | custom => exact absurd rfl hdm
    | g1 =>
        refine drag_spec_aux _ hdm mach g1_table_strictMono ?_
        have e1 : (dragTable DragModel.g1).headD (0, 0) = (0.0, 0.2629) := rfl
        have e2 : (dragTable DragModel.g1).getLastD (0, 0) = (5.00, 0.5016) := rfl
        rw [e1, e2]; norm_num
    | g7 =>
        refine drag_spec_aux _ hdm mach g7_table_strictMono ?_
        have e1 : (dragTable DragModel.g7).headD (0, 0) = (0.0, 0.1198) := rfl
        have e2 : (dragTable DragModel.g7).getLastD (0, 0) = (5.00, 0.5040) := rfl
        rw [e1, e2]; norm_num

/-- Witness for C3 at `mach = 0.32` on the G1 table, inside the bracket
formed by entries 6 and 7. -/
theorem drag_coefficient_clamps_and_interpolates_witness :
    (DragModel.g1 ≠ DragModel.custom)
    ∧ ((dragTable DragModel.g1).headD (0, 0)).1 < (0.32 : ℚ)
    ∧ (0.32 : ℚ) < ((dragTable DragModel.g1).getLastD (0, 0)).1
    ∧ ((dragTable DragModel.g1).get ⟨6, by decide⟩).1 ≤ (0.32 : ℚ)
    ∧ (0.32 : ℚ) ≤ ((dragTable DragModel.g1).get ⟨7, by decide⟩).1
    ∧ get_drag_coefficient 0.32 DragModel.g1 =
        linInterp ((dragTable DragModel.g1).get ⟨6, by decide⟩)
          ((dragTable DragModel.g1).get ⟨7, by decide⟩) 0.32 := by
  have e6 : (dragTable DragModel.g1).get ⟨6, by decide⟩ = (0.30, 0.2214) := rfl
  have e7 : (dragTable DragModel.g1).get ⟨7, by decide⟩ = (0.35, 0.2155) := rfl
  have e1 : (dragTable DragModel.g1).headD (0, 0) = (0.0, 0.2629) := rfl
  have e2 : (dragTable DragModel.g1).getLastD (0, 0) = (5.00, 0.5016) := rfl
  have h1 : ((dragTable DragModel.g1).headD (0, 0)).1 < (0.32 : ℚ) := by
    rw [e1]; norm_num
  have h2 : (0.32 : ℚ) < ((dragTable DragModel.g1).getLastD (0, 0)).1 := by
    rw [e2]; norm_num
  have h3 : ((dragTable DragModel.g1).get ⟨6, by decide⟩).1 ≤ (0.32 : ℚ) := by
    rw [e6]; norm_num
  have h4 : (0.32 : ℚ) ≤ ((dragTable DragModel.g1).get ⟨7, by decide⟩).1 := by
    rw [e7]; norm_num
  refine ⟨by decide, h1, h2, h3, h4, ?_⟩
  exact ((drag_coefficient_clamps_and_interpolates 0.32).2 DragModel.g1
    (by decide)).2.2 h1 h2 6 (by decide) h3 h4

/-- Environmental conditions for ballistics calculations
(`EnvironmentalData` dataclass), over a numeric carrier. -/
structure EnvironmentalData (α : Type) where
  temperature : α
  pressure : α
  humidity : α
  altitude : α
  wind_speed : α
  wind_direction : α
deriving DecidableEq, Repr

/-- Ammunition data for ballistics calculations (`Ammunition` dataclass). -/
structure Ammunition (α : Type) where
  name : String
  caliber : String
  bullet_weight : α
  muzzle_velocity : α
  ballistic_coefficient : α
  drag_model : DragModel
  bullet_diameter : α
  case_length : α
  overall_length : α
deriving DecidableEq, Repr

/-- Single point on the trajectory path (`TrajectoryPoint` NamedTuple). -/
structure TrajectoryPoint (α : Type) where
  distance : α
  drop : α
  velocity : α
  energy : α
  time : α
  windage : α
deriving DecidableEq, Repr

/-- Complete ballistics calculation result (`BallisticsResult` dataclass). -/
structure BallisticsResult (α : Type) where
  ammunition : Ammunition α
  environment : EnvironmentalData α
  zero_distance : α
  trajectory : List (TrajectoryPoint α)
  max_point_blank_range : α
  vital_zone_diameter : α
deriving DecidableEq, Repr

/-- The backward scan of `BallisticsCalculator._calculate_mpbr`: walk the
reversed trajectory, return the first distance whose drop magnitude stays
within the radius, else 0. -/
def mpbrScan {α : Type} [LinearOrderedField α] (radius : α) :
    List (TrajectoryPoint α) → α
  | [] => 0
  | p :: rest => if |p.drop| ≤ radius then p.distance else mpbrScan radius rest

/-- Embedding of `BallisticsCalculator._calculate_mpbr`. -/
def calculate_mpbr {α : Type} [LinearOrderedField α]
    (trajectory : List (TrajectoryPoint α)) (vital_zone_diameter : α) : α :=
  mpbrScan (vital_zone_diameter / 2) trajectory.reverse

/-- The backward scan yields 0 or the distance of some trajectory point. -/
theorem mpbrScan_zero_or_mem {α : Type} [LinearOrderedField α] (radius : α) :
    ∀ l : List (TrajectoryPoint α),
      mpbrScan radius l = 0 ∨ ∃ p ∈ l, mpbrScan radius l = p.distance := by
  intro l
  induction l with
  | nil => exact Or.inl rfl
  | cons p rest ih =>
    by_cases h : |p.drop| ≤ radius
    · exact Or.inr ⟨p, List.mem_cons_self _ _, by simp [mpbrScan, h]⟩
    · rcases ih with h0 | ⟨q, hq, hval⟩
      · exact Or.inl (by simp [mpbrScan, h, h0])
      · exact Or.inr ⟨q, List.mem_cons_of_mem _ hq, by simp [mpbrScan, h, hval]⟩

/-- Monotonicity of the backward scan in the radius, on a list whose
distances are non-increasing and non-negative. -/
theorem mpbrScan_mono {α : Type} [LinearOrderedField α] (r1 r2 : α) (h12 : r1 ≤ r2) :
    ∀ l : List (TrajectoryPoint α),
      l.Chain' (fun a b => b.distance ≤ a.distance) →
      (∀ p ∈ l, 0 ≤ p.distance) →
      mpbrScan r1 l ≤ mpbrScan r2 l := by
  intro l
  induction l with
  | nil => intro _ _; exact le_refl _
  | cons p rest ih =>
    intro hchain hnn
    have hpt : rest.Chain' (fun a b => b.distance ≤ a.distance) := hchain.tail
    by_cases h2 : |p.drop| ≤ r2
    · by_cases h1 : |p.drop| ≤ r1
      · simp [mpbrScan, h1, h2]
      · simp only [mpbrScan, if_neg h1, if_pos h2]
        -- the deeper scan returns 0 or a distance no farther than `p`'s
        have hdom : ∀ q ∈ rest, q.distance ≤ p.distance := by
          haveI : IsTrans (TrajectoryPoint α) (fun a b => b.distance ≤ a.distance) :=
            ⟨fun _ _ _ hab hbc => le_trans hbc hab⟩
          have hpw := List.chain'_iff_pairwise.mp hchain
          intro q hq
          exact (List.pairwise_cons.mp hpw).1 q hq
        rcases mpbrScan_zero_or_mem r1 rest with h0 | ⟨q, hq, hval⟩
        · rw [h0]; exact hnn p (List.mem_cons_self _ _)
        · rw [hval]; exact hdom q hq
    · have h1 : ¬ |p.drop| ≤ r1 := fun h => h2 (le_trans h h12)
      simp only [mpbrScan, if_neg h1, if_neg h2]
      exact ih hpt (fun q hq => hnn q (List.mem_cons_of_mem _ hq))

/-- C5: holding the trajectory (an ordered, non-negative-distance list of
samples) fixed, `_calculate_mpbr` is monotone non-decreasing in the
vital-zone diameter. -/
theorem mpbr_monotone_in_vital_zone (traj : List (TrajectoryPoint ℚ))
    (hsorted : traj.Chain' (fun a b => a.distance ≤ b.distance))
    (hnn : ∀ p ∈ traj, 0 ≤ p.distance) (d1 d2 : ℚ) (h12 : d1 ≤ d2) :
    calculate_mpbr traj d1 ≤ calculate_mpbr traj d2 := by
  unfold calculate_mpbr
  have hrev : traj.reverse.Chain' (fun a b => b.distance ≤ a.distance) := by
    rw [List.chain'_reverse]
    exact hsorted
  have hnn' : ∀ p ∈ traj.reverse, 0 ≤ p.distance := by
    intro p hp
    exact hnn p (List.mem_reverse.mp hp)
  exact mpbrScan_mono (d1 / 2) (d2 / 2) (by linarith) traj.reverse hrev hnn'

/-- Witness for C5 on a concrete two-sample trajectory. -/
theorem mpbr_monotone_in_vital_zone_witness :
    ([⟨0, 0, 800, 3000, 0, 0⟩, ⟨25, -1/5, 780, 2900, 3/100, 0⟩] :
        List (TrajectoryPoint ℚ)).Chain' (fun a b => a.distance ≤ b.distance)
    ∧ (∀ p ∈ ([⟨0, 0, 800, 3000, 0, 0⟩, ⟨25, -1/5, 780, 2900, 3/100, 0⟩] :
        List (TrajectoryPoint ℚ)), 0 ≤ p.distance)
    ∧ (3/20 : ℚ) ≤ 1/4
    ∧ calculate_mpbr ([⟨0, 0, 800, 3000, 0, 0⟩, ⟨25, -1/5, 780, 2900, 3/100, 0⟩] :
        List (TrajectoryPoint ℚ)) (3/20)
      ≤ calculate_mpbr ([⟨0, 0, 800, 3000, 0, 0⟩, ⟨25, -1/5, 780, 2900, 3/100, 0⟩] :
        List (TrajectoryPoint ℚ)) (1/4) := by
  have hc : ([⟨0, 0, 800, 3000, 0, 0⟩, ⟨25, -1/5, 780, 2900, 3/100, 0⟩] :
      List (TrajectoryPoint ℚ)).Chain' (fun a b => a.distance ≤ b.distance) := by
    simp only [List.chain'_cons, List.chain'_singleton, and_true]
    norm_num
  have hn : ∀ p ∈ ([⟨0, 0, 800, 3000, 0, 0⟩, ⟨25, -1/5, 780, 2900, 3/100, 0⟩] :
      List (TrajectoryPoint ℚ)), 0 ≤ p.distance := by
    intro p hp
    rcases List.mem_cons.mp hp with h | hp' <;>
      [skip; rcases List.mem_cons.mp hp' with h | h']
    · subst h; norm_num
    · subst h; norm_num
    · simp at h'
  have h12 : (3/20 : ℚ) ≤ 1/4 := by norm_num
  exact ⟨hc, hn, h12, mpbr_monotone_in_vital_zone _ hc hn _ _ h12⟩

/-- Python's built-in `round` on an exact rational: nearest integer,
ties to even (banker's rounding). -/
def roundHalfEven (x : ℚ) : ℤ :=
  let f := Int.floor x
  if x - f < 1/2 then f
  else if 1/2 < x - f then f + 1
  else if Even f then f else f + 1

/-- Python's `round(x, n)`: banker's rounding at `n` decimal digits. -/
def roundTo (n : ℕ) (x : ℚ) : ℚ :=
  (roundHalfEven (x * 10 ^ n) : ℚ) / 10 ^ n

/-- One scope-adjustment entry produced by `calculate_come_ups` (one value
dict of the `come_ups` mapping). -/
structure ComeUp where
  elevation_moa : ℚ
  windage_moa : ℚ
  elevation_clicks : ℤ
  windage_clicks : ℤ
  velocity : ℚ
  energy : ℚ
  time_of_flight : ℚ
deriving DecidableEq, Repr

/-- `min(result.trajectory, key=lambda p: abs(p.distance - distance))`:
Python's `min` keeps the first element attaining the minimal key. The
empty case is junk (Python raises there); claims assume non-emptiness. -/
def closest_point (trajectory : List (TrajectoryPoint ℚ)) (distance : ℚ) :
    TrajectoryPoint ℚ :=
  match trajectory with
  | [] => ⟨0, 0, 0, 0, 0, 0⟩
  | x :: xs =>
      xs.foldl
        (fun best p =>
          if |p.distance - distance| < |best.distance - distance| then p else best) x

/-- The per-distance body of `BallisticsCalculator.calculate_come_ups`:
nearest sample, MOA conversion by `(value / distance) * 3437.75`, quarter-MOA
clicks from the unrounded MOA, and the dict's rounded reporting. -/
def come_up_for (trajectory : List (TrajectoryPoint ℚ)) (distance : ℚ) : ComeUp :=
  let closest := closest_point trajectory distance
  let elevation_moa := closest.drop / distance * 3437.75
  let windage_moa := closest.windage / distance * 3437.75
  { elevation_moa := roundTo 2 elevation_moa
    windage_moa := roundTo 2 windage_moa
    elevation_clicks := roundHalfEven (elevation_moa / 0.25)
    windage_clicks := roundHalfEven (windage_moa / 0.25)
    velocity := roundTo 1 closest.velocity
    energy := roundTo 0 closest.energy
    time_of_flight := roundTo 3 closest.time }

/-- Embedding of `BallisticsCalculator.calculate_come_ups`: one entry per
requested distance. -/
def calculate_come_ups (result : BallisticsResult ℚ) (distances : List ℚ) :
    List (ℚ × ComeUp) :=
  distances.map (fun d => (d, come_up_for result.trajectory d))

/-- The fold inside `closest_point` returns the first minimum of the key:
the list splits around the result, with strictly larger keys before it and
no smaller key after it. -/
theorem foldl_first_min {T : Type} (key : T → ℚ) :
    ∀ (xs : List T) (x : T),
      ∃ l1 l2,
        x :: xs = l1 ++ (xs.foldl (fun best p => if key p < key best then p else best) x) :: l2
        ∧ (∀ q ∈ l1, key (xs.foldl (fun best p => if key p < key best then p else best) x) < key q)
        ∧ (∀ q ∈ l2, key (xs.foldl (fun best p => if key p < key best then p else best) x) ≤ key q) := by
  intro xs
  induction xs with
  | nil => exact fun x => ⟨[], [], rfl, by simp, by simp⟩
  | cons y ys ih =>
    intro x
    by_cases hxy : key y < key x
    · -- the accumulator is replaced by `y`
      obtain ⟨l1, l2, hsplit, hbefore, hafter⟩ := ih y
      have hstep : (y :: ys).foldl (fun best p => if key p < key best then p else best) x
          = ys.foldl (fun best p => if key p < key best then p else best) y := by
        simp [List.foldl_cons, if_pos hxy]
      refine ⟨x :: l1, l2, ?_, ?_, ?_⟩
      · rw [hstep, List.cons_append, ← hsplit]
      · intro q hq
        rw [hstep]
        rcases List.mem_cons.mp hq with hq0 | hq1
        · subst hq0
          -- the result's key is at most `key y`, which is below `key x`
          have hy : y ∈ y :: ys := List.mem_cons_self _ _
          rw [hsplit] at hy
          rcases List.mem_append.mp hy with hy1 | hy2
          · exact lt_trans (hbefore y hy1) hxy
          · rcases List.mem_cons.mp hy2 with hy0 | hy3
            · rw [← hy0]; exact hxy
            · exact lt_of_le_of_lt (hafter y hy3) hxy
        · exact hbefore q hq1
      · intro q hq
        rw [hstep]
        exact hafter q hq
    · -- the accumulator stays `x`
      obtain ⟨l1, l2, hsplit, hbefore, hafter⟩ := ih x
      have hstep : (y :: ys).foldl (fun best p => if key p < key best then p else best) x
          = ys.foldl (fun best p => if key p < key best then p else best) x := by
        simp [List.foldl_cons, if_neg hxy]
      cases l1 with
      | nil =>
        -- the result is `x` itself; `y` joins the tail side
        simp only [List.nil_append] at hsplit
        have hrx : ys.foldl (fun best p => if key p < key best then p else best) x = x :=
          (List.cons.injEq _ _ _ _ ▸ hsplit).1.symm
        have hl2 : l2 = ys := (List.cons.injEq _ _ _ _ ▸ hsplit).2.symm
        refine ⟨[], y :: ys, by rw [hstep, hrx]; rfl, by simp, ?_⟩
        intro q hq
        rw [hstep, hrx]
        rcases List.mem_cons.mp hq with hq0 | hq1
        · subst hq0; exact not_lt.mp hxy
        · have := hafter q (hl2 ▸ hq1)
          rw [hrx] at this
          exact this
      | cons z t =>
        -- `x` heads the strictly-larger region; `y` slots in after it
        rw [List.cons_append] at hsplit
        injection hsplit with hz htail
        have hxmem : x ∈ z :: t := by rw [hz]; exact List.mem_cons_self _ _
        refine ⟨x :: y :: t, l2, ?_, ?_, ?_⟩
        · rw [hstep]
          simp only [List.cons_append]
          rw [← htail]
        · intro q hq
          rw [hstep]
          rcases List.mem_cons.mp hq with hq0 | hq1
          · rw [hq0]
            exact hbefore x hxmem
          · rcases List.mem_cons.mp hq1 with hq2 | hq3
            · rw [hq2]
              exact lt_of_lt_of_le (hbefore x hxmem) (not_lt.mp hxy)
            · exact hbefore q (List.mem_cons_of_mem _ hq3)
        · intro q hq
          rw [hstep]
          exact hafter q hq

/-- `closest_point` on a non-empty trajectory is the first sample with
minimal `|distance - d|`. -/
theorem closest_point_first_min (traj : List (TrajectoryPoint ℚ)) (hne : traj ≠ [])
    (d : ℚ) :
    ∃ l1 l2, traj = l1 ++ closest_point traj d :: l2
      ∧ (∀ q ∈ l1, |(closest_point traj d).distance - d| < |q.distance - d|)
      ∧ (∀ q ∈ l2, |(closest_point traj d).distance - d| ≤ |q.distance - d|) := by
  cases traj with
  | nil => exact absurd rfl hne
  | cons x xs =>
    have e : closest_point (x :: xs) d =
        xs.foldl
          (fun best p => if |p.distance - d| < |best.distance - d| then p else best) x := rfl
    rw [e]
    have h := foldl_first_min (fun p : TrajectoryPoint ℚ => |p.distance - d|) xs x
    beta_reduce at h
    exact h

/-- C4 (amended): for a non-empty trajectory and each requested distance
`d > 0`, `calculate_come_ups` selects the first trajectory sample `p`
minimizing `|p.distance - d|` (an in-trajectory sample: never extrapolated)
and reports the banker's-rounded values: elevation/windage MOA
`(value / d) * 3437.75` rounded to 2 decimals, clicks
`round(raw_moa / 0.25)` computed from the unrounded MOA, and `p`'s
velocity, energy and time rounded to 1, 0 and 3 decimals. -/
theorem come_ups_nearest_sample (result : BallisticsResult ℚ) (distances : List ℚ)
    (d : ℚ) (hmem : d ∈ distances) (hne : result.trajectory ≠ []) (hd : 0 < d) :
    ∃ p : TrajectoryPoint ℚ,
      (∃ l1 l2, result.trajectory = l1 ++ p :: l2
        ∧ (∀ q ∈ l1, |p.distance - d| < |q.distance - d|))
      ∧ (∀ q ∈ result.trajectory, |p.distance - d| ≤ |q.distance - d|)
      ∧ (d, ({ elevation_moa := roundTo 2 (p.drop / d * 3437.75)
               windage_moa := roundTo 2 (p.windage / d * 3437.75)
               elevation_clicks := roundHalfEven (p.drop / d * 3437.75 / 0.25)
               windage_clicks := roundHalfEven (p.windage / d * 3437.75 / 0.25)
               velocity := roundTo 1 p.velocity
               energy := roundTo 0 p.energy
               time_of_flight := roundTo 3 p.time } : ComeUp))
          ∈ calculate_come_ups result distances := by
  obtain ⟨l1, l2, hsplit, hbefore, hafter⟩ :=
    closest_point_first_min result.trajectory hne d
  refine ⟨closest_point result.trajectory d, ⟨l1, l2, hsplit, hbefore⟩, ?_, ?_⟩
  · intro q hq
    rw [hsplit] at hq
    rcases List.mem_append.mp hq with hq1 | hq2
    · exact le_of_lt (hbefore q hq1)
    · rcases List.mem_cons.mp hq2 with hq0 | hq3
      · rw [hq0]
      · exact hafter q hq3
  · have hcu : come_up_for result.trajectory d =
        { elevation_moa := roundTo 2 ((closest_point result.trajectory d).drop / d * 3437.75)
          windage_moa := roundTo 2 ((closest_point result.trajectory d).windage / d * 3437.75)
          elevation_clicks :=
            roundHalfEven ((closest_point result.trajectory d).drop / d * 3437.75 / 0.25)
          windage_clicks :=
            roundHalfEven ((closest_point result.trajectory d).windage / d * 3437.75 / 0.25)
          velocity := roundTo 1 (closest_point result.trajectory d).velocity
          energy := roundTo 0 (closest_point result.trajectory d).energy
          time_of_flight := roundTo 3 (closest_point result.trajectory d).time } := by
      simp only [come_up_for]
    rw [← hcu]
    exact List.mem_map_of_mem (fun d => (d, come_up_for result.trajectory d)) hmem

/-- A concrete single-sample result used to exercise the come-up logic:
drop 0.01 m at 100 m gives a raw elevation of 0.343775 MOA, which the
code reports rounded to 0.34. -/
def resultC4 : BallisticsResult ℚ :=
  ⟨⟨"Test 308", ".308", 168, 820, 47/100, DragModel.g1, 782/100, 5118/100, 78⟩,
   ⟨15, 101325/100, 50, 0, 0, 0⟩,
   100,
   [⟨100, 1/100, 700, 2000, 1/10, 0⟩],
   0,
   1/5⟩

/-- Counterexample to C4 as stated: the reported elevation MOA is the
2-decimal rounding of `(p.drop / d) * 3437.75`, not that raw value itself
(0.34 versus 0.343775 at the concrete input). -/
theorem come_ups_reported_moa_is_rounded :
    (come_up_for resultC4.trajectory 100).elevation_moa ≠
      (closest_point resultC4.trajectory 100).drop / 100 * 3437.75 := by
  intro h
  simp only [resultC4, come_up_for, closest_point, roundTo, List.foldl_nil] at h
  rw [div_eq_iff (by norm_num : ((10 : ℚ) ^ 2) ≠ 0)] at h
  have h2 : ((roundHalfEven ((1 : ℚ) / 100 / 100 * 3437.75 * 10 ^ 2) * 1000000 : ℤ) : ℚ)
      = (343775 * 100 : ℚ) := by
    push_cast
    have hr : ((1 : ℚ) / 100 / 100 * 3437.75) = 343775 / 1000000 := by norm_num
    rw [hr] at h
    norm_num at h ⊢
    linarith
  have h3 : (roundHalfEven ((1 : ℚ) / 100 / 100 * 3437.75 * 10 ^ 2) * 1000000 : ℤ)
      = 34377500 := by exact_mod_cast h2
  omega

/-- Witness for C4 (amended) on the concrete single-sample result at the
requested distance 100. -/
theorem come_ups_nearest_sample_witness :
    (100 : ℚ) ∈ [(100 : ℚ)]
    ∧ resultC4.trajectory ≠ []
    ∧ (0 : ℚ) < 100
    ∧ ∃ p : TrajectoryPoint ℚ,
        (∃ l1 l2, resultC4.trajectory = l1 ++ p :: l2
          ∧ (∀ q ∈ l1, |p.distance - 100| < |q.distance - 100|))
        ∧ (∀ q ∈ resultC4.trajectory, |p.distance - 100| ≤ |q.distance - 100|)
        ∧ ((100 : ℚ), ({ elevation_moa := roundTo 2 (p.drop / 100 * 3437.75)
                         windage_moa := roundTo 2 (p.windage / 100 * 3437.75)
                         elevation_clicks := roundHalfEven (p.drop / 100 * 3437.75 / 0.25)
                         windage_clicks := roundHalfEven (p.windage / 100 * 3437.75 / 0.25)
                         velocity := roundTo 1 p.velocity
                         energy := roundTo 0 p.energy
                         time_of_flight := roundTo 3 p.time } : ComeUp))
            ∈ calculate_come_ups resultC4 [100] :=
  ⟨by simp, by simp [resultC4], by norm_num,
   come_ups_nearest_sample resultC4 [100] 100 (by simp) (by simp [resultC4])
     (by norm_num)⟩

/-- Embedding of `EnvironmentalData.air_density_ratio`:
`(pressure / 1013.25) * (288.15 / (T + 273.15)) * (1 - 0.0065 * humidity / 100)
 * exp(-altitude / 8400)`. -/
noncomputable def air_density_ratio (e : EnvironmentalData ℝ) : ℝ :=
  (e.pressure / 1013.25) * (288.15 / (e.temperature + 273.15)) *
    (1 - 0.0065 * e.humidity / 100) * Real.exp (-e.altitude / 8400)

/-- Embedding of `BallisticsCalculator._calculate_basic_drop`:
unretarded gravity drop `0.5 * g * (distance / velocity)^2`. -/
noncomputable def calculate_basic_drop (distance velocity : ℝ) : ℝ :=
  0.5 * 9.80665 * (distance / velocity) ^ 2

/-- Embedding of `BallisticsCalculator._find_zero_angle` (the `environment`
argument is accepted but unused, as in the source). -/
noncomputable def find_zero_angle (ammo : Ammunition ℝ)
    (environment : EnvironmentalData ℝ) (zero_distance : ℝ) : ℝ :=
  Real.arctan (calculate_basic_drop zero_distance ammo.muzzle_velocity / zero_distance)

/-- Embedding of `BallisticsCalculator._calculate_wind_drift`. -/
noncomputable def calculate_wind_drift (distance time_of_flight : ℝ)
    (environment : EnvironmentalData ℝ) : ℝ :=
  let crosswind_component :=
    environment.wind_speed * Real.sin (environment.wind_direction * (Real.pi / 180))
  crosswind_component * time_of_flight * 0.5

/-- Embedding of `BallisticsCalculator._calculate_point`. `cross_section`,
`air_density` and `sound_speed` are accepted but unused, as in the source. -/
noncomputable def calculate_point (distance : ℝ) (ammo : Ammunition ℝ)
    (environment : EnvironmentalData ℝ)
    (launch_angle mass_kg cross_section air_density sound_speed : ℝ) :
    TrajectoryPoint ℝ :=
  let initial_velocity := ammo.muzzle_velocity
  let time_of_flight := distance / (initial_velocity * Real.cos launch_angle)
  let velocity_loss_factor := 1.0 - (distance / 1000.0) * 0.3 * air_density_ratio environment
  let velocity := initial_velocity * max 0.3 velocity_loss_factor
  let gravity_drop := 0.5 * 9.80665 * time_of_flight ^ 2
  let launch_compensation := distance * Real.tan launch_angle
  let drop := gravity_drop - launch_compensation
  let energy := 0.5 * mass_kg * velocity ^ 2
  let wind_effect := calculate_wind_drift distance time_of_flight environment
  ⟨distance, -drop, velocity, energy, time_of_flight, wind_effect⟩

/-- The `while x <= max_range` guard of `calculate_trajectory`'s sampling
loop at the start of iteration `n`, when `x` has been stepped `n` times:
`n * step_size <= max_range`. -/
def loopGuardHolds (step_size max_range : ℝ) (n : ℕ) : Prop :=
  (n : ℝ) * step_size ≤ max_range

/-- The distances emitted by the sampling loop in the terminating case
(`step_size > 0`): `0, step, 2*step, ...` while the guard holds. For
`max_range < 0` the loop body never runs. For `step_size <= 0` with
`max_range >= 0` the source loop never exits (see the C2 theorem); the
value here is junk for that case. -/
noncomputable def trajectoryDistances (max_range step_size : ℝ) : List ℝ :=
  if 0 ≤ max_range ∧ 0 < step_size then
    (List.range (⌊max_range / step_size⌋₊ + 1)).map (fun (n : ℕ) => (n : ℝ) * step_size)
  else []

/-- Embedding of `BallisticsCalculator.calculate_trajectory` (terminating
cases; logging omitted). -/
noncomputable def calculate_trajectory (ammo : Ammunition ℝ)
    (environment : EnvironmentalData ℝ)
    (zero_distance max_range step_size vital_zone_diameter : ℝ) :
    BallisticsResult ℝ :=
  let mass_kg := ammo.bullet_weight * 0.00006479891
  let diameter_m := ammo.bullet_diameter / 1000.0
  let cross_section := Real.pi * (diameter_m / 2) ^ 2
  let air_density := air_density_ratio environment * 1.225
  let sound_speed := 331.3 * Real.sqrt (1 + environment.temperature / 273.15)
  let zero_angle := find_zero_angle ammo environment zero_distance
  let trajectory :=
    (trajectoryDistances max_range step_size).map
      (fun x => calculate_point x ammo environment zero_angle mass_kg cross_section
        air_density sound_speed)
  let mpbr := calculate_mpbr trajectory vital_zone_diameter
  ⟨ammo, environment, zero_distance, trajectory, mpbr, vital_zone_diameter⟩

/-- Embedding of the `BallisticsResult.muzzle_energy` property. -/
noncomputable def muzzle_energy (r : BallisticsResult ℝ) : ℝ :=
  0.5 * (r.ammunition.bullet_weight * 0.00006479891) * r.ammunition.muzzle_velocity ^ 2

/-- C2 (code behaviour at the spec'd edge case): with `step_size <= 0` and
`max_range >= 0` the sampling loop's guard holds after every iteration, so
`calculate_trajectory` neither raises nor returns — no `ConfigurationError`
exists anywhere in the code; with `step_size > 0` the emitted sample list
contains exactly the iterations at which the guard holds, so the loop
exits after finitely many steps and a `BallisticsResult` is returned. -/
theorem step_size_loop_guard (s mr : ℝ) :
    (s ≤ 0 → 0 ≤ mr → ∀ n : ℕ, loopGuardHolds s mr n)
    ∧ (0 < s → ∀ k : ℕ,
        (k < (trajectoryDistances mr s).length ↔ loopGuardHolds s mr k)) := by
  constructor
  · intro hs hmr n
    unfold loopGuardHolds
    calc (n : ℝ) * s ≤ 0 := mul_nonpos_of_nonneg_of_nonpos (Nat.cast_nonneg n) hs
    _ ≤ mr := hmr
  · intro hs k
    unfold loopGuardHolds trajectoryDistances
    by_cases hmr : 0 ≤ mr
    · rw [if_pos ⟨hmr, hs⟩]
      rw [List.length_map, List.length_range]
      constructor
      · intro hk
        have hk' : k ≤ ⌊mr / s⌋₊ := Nat.lt_succ_iff.mp hk
        have : (k : ℝ) ≤ mr / s :=
          le_trans (Nat.cast_le.mpr hk') (Nat.floor_le (div_nonneg hmr (le_of_lt hs)))
        calc (k : ℝ) * s ≤ (mr / s) * s := mul_le_mul_of_nonneg_right this (le_of_lt hs)
        _ = mr := div_mul_cancel₀ mr (ne_of_gt hs)
      · intro hg
        have h1 : (k : ℝ) ≤ mr / s := (le_div_iff₀ hs).mpr hg
        have h2 : k ≤ ⌊mr / s⌋₊ := Nat.le_floor h1
        exact Nat.lt_succ_of_le h2
    · rw [if_neg (fun h => hmr h.1)]
      push_neg at hmr
      simp only [List.length_nil]
      constructor
      · intro hk; exact absurd hk (Nat.not_lt_zero k)
      · intro hg
        exact absurd (lt_of_le_of_lt hg hmr)
          (not_lt.mpr (mul_nonneg (Nat.cast_nonneg k) (le_of_lt hs)))

/-- Witness for C2's theorem: the guard holds forever at
`step_size = 0, max_range = 1000` (iteration 7 shown), and at
`step_size = 25` the sample-count equivalence holds at `k = 3`. -/
theorem step_size_loop_guard_witness :
    ((0 : ℝ) ≤ 0 ∧ (0 : ℝ) ≤ 1000 ∧ loopGuardHolds 0 1000 7)
    ∧ ((0 : ℝ) < 25
      ∧ (3 < (trajectoryDistances 1000 25).length ↔ loopGuardHolds 25 1000 3)) :=
  ⟨⟨le_refl 0, by norm_num,
    (step_size_loop_guard 0 1000).1 (le_refl 0) (by norm_num) 7⟩,
   ⟨by norm_num, (step_size_loop_guard 25 1000).2 (by norm_num) 3⟩⟩

/-- C6: every sample of any trajectory returned by `calculate_trajectory`
has velocity at least 30% of the muzzle velocity, hence strictly positive
velocity and strictly positive kinetic energy (using the data-model
invariant that bullet weight is positive), regardless of distance or
air-density ratio. -/
theorem trajectory_velocity_floored (ammo : Ammunition ℝ)
    (environment : EnvironmentalData ℝ)
    (zero_distance max_range step_size vital_zone_diameter : ℝ)
    (hmv : 0 < ammo.muzzle_velocity) (hbw : 0 < ammo.bullet_weight) :
    ∀ p ∈ (calculate_trajectory ammo environment zero_distance max_range step_size
        vital_zone_diameter).trajectory,
      0.3 * ammo.muzzle_velocity ≤ p.velocity ∧ 0 < p.velocity ∧ 0 < p.energy := by
  intro p hp
  simp only [calculate_trajectory, List.mem_map] at hp
  obtain ⟨x, _, hfx⟩ := hp
  have hv : p.velocity =
      ammo.muzzle_velocity *
        max 0.3 (1.0 - (x / 1000.0) * 0.3 * air_density_ratio environment) := by
    rw [← hfx]; rfl
  have he : p.energy =
      0.5 * (ammo.bullet_weight * 0.00006479891) * p.velocity ^ 2 := by
    rw [← hfx]; rfl
  have hmax : (0.3 : ℝ) ≤
      max 0.3 (1.0 - (x / 1000.0) * 0.3 * air_density_ratio environment) :=
    le_max_left _ _
  have hvel : 0.3 * ammo.muzzle_velocity ≤ p.velocity := by
    rw [hv]
    calc (0.3 : ℝ) * ammo.muzzle_velocity
        = ammo.muzzle_velocity * 0.3 := mul_comm _ _
    _ ≤ _ := mul_le_mul_of_nonneg_left hmax (le_of_lt hmv)
  have hvpos : 0 < p.velocity :=
    lt_of_lt_of_le (by positivity) hvel
  refine ⟨hvel, hvpos, ?_⟩
  rw [he]
  positivity

/-- A concrete load and environment used by the trajectory witnesses. -/
noncomputable def ammoR : Ammunition ℝ :=
  ⟨"Test 308", ".308", 168, 820, 0.47, DragModel.g1, 7.82, 51.18, 78⟩

/-- Standard-atmosphere environment used by the trajectory witnesses. -/
noncomputable def envR : EnvironmentalData ℝ :=
  ⟨15, 1013.25, 55, 450, 0, 0⟩

/-- Witness for C6 on the concrete load at 500 m range. -/
theorem trajectory_velocity_floored_witness :
    (0 : ℝ) < ammoR.muzzle_velocity
    ∧ (0 : ℝ) < ammoR.bullet_weight
    ∧ ∀ p ∈ (calculate_trajectory ammoR envR 100 500 25 0.25).trajectory,
        0.3 * ammoR.muzzle_velocity ≤ p.velocity ∧ 0 < p.velocity ∧ 0 < p.energy :=
  ⟨by norm_num [ammoR], by norm_num [ammoR],
   trajectory_velocity_floored ammoR envR 100 500 25 0.25
     (by norm_num [ammoR]) (by norm_num [ammoR])⟩

/-- C10: with positive muzzle velocity, positive step size and
`max_range >= 0`, the returned trajectory is non-empty and its first
sample is the muzzle point: distance 0, drop 0, time 0, windage 0,
velocity equal to the muzzle velocity and energy equal to the result's
`muzzle_energy` property. -/
theorem trajectory_first_sample_is_muzzle (ammo : Ammunition ℝ)
    (environment : EnvironmentalData ℝ)
    (zero_distance max_range step_size vital_zone_diameter : ℝ)
    (hmv : 0 < ammo.muzzle_velocity) (hmr : 0 ≤ max_range) (hss : 0 < step_size) :
    (calculate_trajectory ammo environment zero_distance max_range step_size
        vital_zone_diameter).trajectory ≠ []
    ∧ (calculate_trajectory ammo environment zero_distance max_range step_size
        vital_zone_diameter).trajectory.head? =
      some ⟨0, 0, ammo.muzzle_velocity,
        muzzle_energy (calculate_trajectory ammo environment zero_distance max_range
          step_size vital_zone_diameter), 0, 0⟩ := by
  have hdists : trajectoryDistances max_range step_size =
      (0 : ℝ) * step_size ::
        (List.range ⌊max_range / step_size⌋₊).map
          (fun (n : ℕ) => ((n + 1 : ℕ) : ℝ) * step_size) := by
    unfold trajectoryDistances
    rw [if_pos ⟨hmr, hss⟩, List.range_succ_eq_map, List.map_cons, List.map_map]
    simp [Function.comp]
  have htraj : (calculate_trajectory ammo environment zero_distance max_range step_size
      vital_zone_diameter).trajectory =
      (trajectoryDistances max_range step_size).map
        (fun x => calculate_point x ammo environment
          (find_zero_angle ammo environment zero_distance)
          (ammo.bullet_weight * 0.00006479891)
          (Real.pi * (ammo.bullet_diameter / 1000.0 / 2) ^ 2)
          (air_density_ratio environment * 1.225)
          (331.3 * Real.sqrt (1 + environment.temperature / 273.15))) := rfl
  constructor
  · rw [htraj, hdists]
    simp
  · rw [htraj, hdists, List.map_cons, List.head?_cons]
    have hx0 : (0 : ℝ) * step_size = 0 := zero_mul _
    rw [hx0]
    have hpt : calculate_point 0 ammo environment
        (find_zero_angle ammo environment zero_distance)
        (ammo.bullet_weight * 0.00006479891)
        (Real.pi * (ammo.bullet_diameter / 1000.0 / 2) ^ 2)
        (air_density_ratio environment * 1.225)
        (331.3 * Real.sqrt (1 + environment.temperature / 273.15)) =
        ⟨0, 0, ammo.muzzle_velocity,
          0.5 * (ammo.bullet_weight * 0.00006479891) * ammo.muzzle_velocity ^ 2,
          0, 0⟩ := by
      unfold calculate_point calculate_wind_drift
      have htof : (0 : ℝ) / (ammo.muzzle_velocity *
          Real.cos (find_zero_angle ammo environment zero_distance)) = 0 := zero_div _
      have hvlf : (1.0 : ℝ) - (0 / 1000.0) * 0.3 * air_density_ratio environment = 1 := by
        norm_num
      have hmax : max (0.3 : ℝ) 1 = 1 := max_eq_right (by norm_num)
      simp only [htof, hvlf, hmax, TrajectoryPoint.mk.injEq]
      exact ⟨trivial, by ring, mul_one _, by ring, trivial, by ring⟩
    rw [hpt]
    have hme : muzzle_energy (calculate_trajectory ammo environment zero_distance
        max_range step_size vital_zone_diameter) =
        0.5 * (ammo.bullet_weight * 0.00006479891) * ammo.muzzle_velocity ^ 2 := rfl
    rw [hme]

/-- Witness for C10 on the concrete load: 500 m range, 25 m steps. -/
theorem trajectory_first_sample_is_muzzle_witness :
    (0 : ℝ) < ammoR.muzzle_velocity
    ∧ (0 : ℝ) ≤ 500
    ∧ (0 : ℝ) < 25
    ∧ ((calculate_trajectory ammoR envR 100 500 25 0.25).trajectory ≠ []
      ∧ (calculate_trajectory ammoR envR 100 500 25 0.25).trajectory.head? =
        some ⟨0, 0, ammoR.muzzle_velocity,
          muzzle_energy (calculate_trajectory ammoR envR 100 500 25 0.25), 0, 0⟩) :=
  ⟨by norm_num [ammoR], by norm_num, by norm_num,
   trajectory_first_sample_is_muzzle ammoR envR 100 500 25 0.25
     (by norm_num [ammoR]) (by norm_num) (by norm_num)⟩

/-- JSON values as loaded by `json.load`: numbers are exact rationals
(ints and floats compare equal in Python, as in `ℚ`), objects are
insertion-ordered key/value lists without duplicate keys. -/
inductive JVal where
  | jnum (q : ℚ)
  | jstr (s : String)
  | jbool (b : Bool)
  | jnull
  | jarr (items : List JVal)
  | jobj (fields : List (String × JVal))

/-- `dict.get(key)`: first binding of `key`, if any. -/
def getField : List (String × JVal) → String → Option JVal
  | [], _ => none
  | (k, v) :: rest, key => if k = key then some v else getField rest key

/-- `dict[key] = v`: replace in place, else append. -/
def setField : List (String × JVal) → String → JVal → List (String × JVal)
  | [], key, v => [(key, v)]
  | (k, w) :: rest, key, v =>
      if k = key then (k, v) :: rest else (k, w) :: setField rest key v

mutual

/-- Python `==` on JSON values: numbers by exact value, dicts by size and
per-key equality (insertion order irrelevant). -/
def pyEq : JVal → JVal → Bool
  | JVal.jnum a, JVal.jnum b => a == b
  | JVal.jstr a, JVal.jstr b => a == b
  | JVal.jbool a, JVal.jbool b => a == b
  | JVal.jnull, JVal.jnull => true
  | JVal.jarr xs, JVal.jarr ys => pyEqList xs ys
  | JVal.jobj xs, JVal.jobj ys => xs.length == ys.length && pyEqFields xs ys
  | _, _ => false

/-- Python `==` on lists: lengths and elementwise equality. -/
def pyEqList : List JVal → List JVal → Bool
  | [], [] => true
  | x :: xs, y :: ys => pyEq x y && pyEqList xs ys
  | _, _ => false

/-- Each binding of the first dict is present and equal in the second. -/
def pyEqFields : List (String × JVal) → List (String × JVal) → Bool
  | [], _ => true
  | (k, v) :: rest, ys =>
      (match getField ys k with
       | some w => pyEq v w
       | none => false) && pyEqFields rest ys

end

/-- Python exceptions relevant to the store code paths. -/
inductive PyErr where
  | migrationError
  | valueError
  | attributeError
deriving DecidableEq, Repr

/-- `float(x)` on a JSON value (or the float default when the key was
absent). Numeric strings are modelled as failures: JSON documents store
these quantities as numbers. -/
def asNum : Option JVal → ℚ → Except PyErr ℚ
  | none, dflt => Except.ok dflt
  | some (JVal.jnum q), _ => Except.ok q
  | some (JVal.jbool b), _ => Except.ok (if b then 1 else 0)
  | some _, _ => Except.error PyErr.valueError

/-- A string field read with a default; the source stores these verbatim,
and every claim-relevant document holds strings here. -/
def asStr : Option JVal → String → Except PyErr String
  | none, dflt => Except.ok dflt
  | some (JVal.jstr s), _ => Except.ok s
  | some _, _ => Except.error PyErr.valueError

/-- `int(x)` truncates a float toward zero. Numeric strings are modelled
as failures, as in `asNum`. -/
def ratTrunc (q : ℚ) : ℤ :=
  if q < 0 then -(Int.floor (-q)) else Int.floor q

/-- `int()` coercion used on the stored `version` marker. -/
def asInt : JVal → Except PyErr ℤ
  | JVal.jnum q => Except.ok (ratTrunc q)
  | JVal.jbool b => Except.ok (if b then 1 else 0)
  | _ => Except.error PyErr.valueError

/-- `DragModel(value)`: only the three enum values parse. -/
def parseDragModel : JVal → Option DragModel
  | JVal.jstr "G1" => some DragModel.g1
  | JVal.jstr "G7" => some DragModel.g7
  | JVal.jstr "Custom" => some DragModel.custom
  | _ => none

/-- `DragModel.value`. -/
def dragModelValue : DragModel → String
  | DragModel.g1 => "G1"
  | DragModel.g7 => "G7"
  | DragModel.custom => "Custom"

/-- Decimal rendering of a rational whose denominator divides 10^6, used
for generated ammunition names and advisor texts (`f"{x}"` on the
claim-relevant values). -/
def fmtQ (q : ℚ) : String :=
  let sign := if q < 0 then "-" else ""
  let n := q.num.natAbs
  let d := q.den
  if d = 1 then sign ++ toString n
  else if d ∣ 1000000 then
    let k := 1000000 / d
    let scaled := n * k
    let ip := scaled / 1000000
    let fp := scaled % 1000000
    let fpChars := (toString fp).toList
    let padded := List.replicate (6 - fpChars.length) '0' ++ fpChars
    let trimmed := (padded.reverse.dropWhile (fun c => c = '0')).reverse
    sign ++ toString ip ++ "." ++ String.mk trimmed
  else sign ++ toString q.num ++ "/" ++ toString d

/-- Embedding of `Ammunition.from_dict` plus the dataclass
`__post_init__` name generation for empty names. -/
def ammunition_from_dict (payload : Option JVal) : Except PyErr (Ammunition ℚ) :=
  match payload with
  | none => Except.error PyErr.valueError
  | some JVal.jnull => Except.error PyErr.valueError
  | some (JVal.jobj data) => do
      let dragJ := (getField data "drag_model").getD (JVal.jstr "G1")
      let drag_model ← match parseDragModel dragJ with
        | some dm => Except.ok dm
        | none => Except.error PyErr.valueError
      let name ← asStr (getField data "name") ""
      let caliber ← asStr (getField data "caliber") ""
      let bullet_weight ← asNum (getField data "bullet_weight") 0
      let muzzle_velocity ← asNum (getField data "muzzle_velocity") 0
      let ballistic_coefficient ← asNum (getField data "ballistic_coefficient") 0
      let bullet_diameter ← asNum (getField data "bullet_diameter") 0
      let case_length ← asNum (getField data "case_length") 0
      let overall_length ← asNum (getField data "overall_length") 0
      let final_name :=
        if name = "" then caliber ++ " " ++ fmtQ bullet_weight ++ "gr" else name
      Except.ok ⟨final_name, caliber, bullet_weight, muzzle_velocity,
        ballistic_coefficient, drag_model, bullet_diameter, case_length, overall_length⟩
  | some _ => Except.error PyErr.attributeError

/-- Embedding of `EnvironmentalData.from_dict`. -/
def environment_from_dict (payload : Option JVal) : Except PyErr (EnvironmentalData ℚ) :=
  match payload with
  | none => Except.error PyErr.valueError
  | some JVal.jnull => Except.error PyErr.valueError
  | some (JVal.jobj data) => do
      let temperature ← asNum (getField data "temperature") 15
      let pressure ← asNum (getField data "pressure") (101325/100)
      let humidity ← asNum (getField data "humidity") 50
      let altitude ← asNum (getField data "altitude") 0
      let wind_speed ← asNum (getField data "wind_speed") 0
      let wind_direction ← asNum (getField data "wind_direction") 0
      Except.ok ⟨temperature, pressure, humidity, altitude, wind_speed, wind_direction⟩
  | some _ => Except.error PyErr.attributeError

/-- Serialized snapshot of a complete ballistic setup
(`BallisticProfile` dataclass). -/
structure BallisticProfile where
  name : String
  ammunition : Ammunition ℚ
  environment : EnvironmentalData ℚ
  zero_distance : ℚ
  max_range : ℚ
  vital_zone_diameter : ℚ
  notes : String
  created_at : String
  updated_at : String
deriving DecidableEq, Repr

/-- Embedding of `BallisticProfile.from_dict`; `now` is the process clock
used for absent timestamp fields. -/
def profile_from_dict (j : JVal) (now : String) : Except PyErr BallisticProfile :=
  match j with
  | JVal.jobj data => do
      let name ← asStr (getField data "name") "Unnamed Profile"
      let ammunition ← ammunition_from_dict (getField data "ammunition")
      let environment ← environment_from_dict (getField data "environment")
      let zero_distance ← asNum (getField data "zero_distance") 100
      let max_range ← asNum (getField data "max_range") 800
      let vital_zone_diameter ← asNum (getField data "vital_zone_diameter") (1/5)
      let notes ← asStr (getField data "notes") ""
      let created_at ← asStr (getField data "created_at") now
      let updated_at ← asStr (getField data "updated_at") now
      Except.ok ⟨name, ammunition, environment, zero_distance, max_range,
        vital_zone_diameter, notes, created_at, updated_at⟩
  | _ => Except.error PyErr.attributeError

/-- Embedding of `Ammunition.to_dict`. -/
def ammunition_to_dict (a : Ammunition ℚ) : JVal :=
  JVal.jobj
    [("name", JVal.jstr a.name),
     ("caliber", JVal.jstr a.caliber),
     ("bullet_weight", JVal.jnum a.bullet_weight),
     ("muzzle_velocity", JVal.jnum a.muzzle_velocity),
     ("ballistic_coefficient", JVal.jnum a.ballistic_coefficient),
     ("drag_model", JVal.jstr (dragModelValue a.drag_model)),
     ("bullet_diameter", JVal.jnum a.bullet_diameter),
     ("case_length", JVal.jnum a.case_length),
     ("overall_length", JVal.jnum a.overall_length)]

/-- Embedding of `EnvironmentalData.to_dict`. -/
def environment_to_dict (e : EnvironmentalData ℚ) : JVal :=
  JVal.jobj
    [("temperature", JVal.jnum e.temperature),
     ("pressure", JVal.jnum e.pressure),
     ("humidity", JVal.jnum e.humidity),
     ("altitude", JVal.jnum e.altitude),
     ("wind_speed", JVal.jnum e.wind_speed),
     ("wind_direction", JVal.jnum e.wind_direction)]

/-- Embedding of `BallisticProfile.to_dict`. -/
def profile_to_dict (p : BallisticProfile) : JVal :=
  JVal.jobj
    [("name", JVal.jstr p.name),
     ("ammunition", ammunition_to_dict p.ammunition),
     ("environment", environment_to_dict p.environment),
     ("zero_distance", JVal.jnum p.zero_distance),
     ("max_range", JVal.jnum p.max_range),
     ("vital_zone_diameter", JVal.jnum p.vital_zone_diameter),
     ("notes", JVal.jstr p.notes),
     ("created_at", JVal.jstr p.created_at),
     ("updated_at", JVal.jstr p.updated_at)]

/-- Content of a file on disk: valid JSON (as parsed) or bytes that
`json.load` rejects. -/
inductive FileContent where
  | invalidJson (raw : String)
  | validJson (doc : JVal)

/-- On-disk state owned by `BallisticProfileStorage`: the `profiles.json`
store file (absent or with content) and the backup directory's files in
creation (mtime) order. -/
structure ProfileStoreFS where
  storeFile : Option FileContent
  backups : List (String × FileContent)

/-- Result information for a migration (`MigrationOutcome` dataclass). -/
structure MigrationOutcome where
  previous_version : ℤ
  new_version : ℤ
  backup_path : Option String
deriving DecidableEq, Repr

/-- Summary of an import operation
(`BallisticProfileImportReport` dataclass). -/
structure BallisticProfileImportReport where
  imported : List String
  skipped : List String
  overwritten : List String
deriving DecidableEq, Repr

/-- Backup file name written by `migrations._create_backup` for the
ballistic store: `profiles-v{version}-ballistics-backup-{timestamp}.json`. -/
def migrationBackupName (version : ℤ) (now : String) : String :=
  "profiles-v" ++ toString version ++ "-ballistics-backup-" ++ now ++ ".json"

/-- Quarantine file name written by `_preserve_corrupted_store`:
`profiles-corrupted-{timestamp}.json`. -/
def quarantineName (now : String) : String :=
  "profiles-corrupted-" ++ now ++ ".json"

/-- Backup file name written by `BallisticProfileStorage._create_backup`
with no suffix: `profiles-{timestamp}.json`. -/
def saveBackupName (now : String) : String :=
  "profiles-" ++ now ++ ".json"

/-- Embedding of `migrate_ballistic_profile_store` from `migrations.py`,
as a transition on the store filesystem; raised exceptions become
`Except.error`. -/
def migrate_ballistic_profile_store (fs : ProfileStoreFS) (target_version : ℤ)
    (now : String) : Except PyErr (Option MigrationOutcome × ProfileStoreFS) :=
  match fs.storeFile with
  | none => Except.ok (none, fs)
  | some (FileContent.invalidJson _) => Except.error PyErr.migrationError
  | some (FileContent.validJson raw) => do
      let (current_version, raw_profiles, metadata) ←
        (match raw with
         | JVal.jobj fields => do
             let current_version ←
               (match getField fields "version" with
                | none => Except.ok (0 : ℤ)
                | some v => asInt v)
             let raw_profiles ←
               (match getField fields "profiles" with
                | some (JVal.jarr xs) => Except.ok xs
                | _ =>
                  match getField fields "entries" with
                  | some (JVal.jarr xs) => Except.ok xs
                  | _ => Except.error PyErr.migrationError)
             let metadata := fields.filter
               (fun kv => kv.1 != "version" && kv.1 != "profiles" && kv.1 != "entries")
             Except.ok (current_version, raw_profiles, metadata)
         | JVal.jarr xs => Except.ok ((0 : ℤ), xs, ([] : List (String × JVal)))
         | _ => Except.error PyErr.migrationError)
      let normalized ← raw_profiles.mapM
        (fun e => (profile_from_dict e now).map profile_to_dict)
      let requiresMigration : Bool := current_version != target_version
      let requiresRewrite : Bool := requiresMigration || !(pyEqList raw_profiles normalized)
      if requiresRewrite then
        let payload0 := metadata ++
          [("version", JVal.jnum (target_version : ℚ)), ("profiles", JVal.jarr normalized)]
        let payload := if requiresMigration then
            setField (setField payload0 "migrated_at" (JVal.jstr now))
              "migrated_from_version" (JVal.jnum (current_version : ℚ))
          else payload0
        let backup_path := migrationBackupName current_version now
        Except.ok (some ⟨current_version, target_version, some backup_path⟩,
          ⟨some (FileContent.validJson (JVal.jobj payload)),
           fs.backups ++ [(backup_path, FileContent.validJson raw)]⟩)
      else
        Except.ok (none, fs)

/-- `profiles[profile.name] = profile` with dict semantics: replace in
place, else append. -/
def upsertProfile (l : List (String × BallisticProfile)) (name : String)
    (p : BallisticProfile) : List (String × BallisticProfile) :=
  match l with
  | [] => [(name, p)]
  | (k, v) :: rest =>
      if k = name then (k, p) :: rest else (k, v) :: upsertProfile rest name p

/-- Embedding of `BallisticProfileStorage.load_profiles`: absent file is
an empty mapping; corrupt JSON quarantines a copy and is an empty mapping;
entries that fail to parse are skipped; later duplicates win. -/
def load_profiles (fs : ProfileStoreFS) (now : String) :
    Except PyErr (List (String × BallisticProfile) × ProfileStoreFS) :=
  match fs.storeFile with
  | none => Except.ok ([], fs)
  | some (FileContent.invalidJson raw) =>
      Except.ok ([],
        ⟨fs.storeFile, fs.backups ++ [(quarantineName now, FileContent.invalidJson raw)]⟩)
  | some (FileContent.validJson payload) =>
      match payload with
      | JVal.jobj fields =>
          match getField fields "profiles" with
          | some (JVal.jarr entries) =>
              Except.ok
                (entries.foldl
                  (fun acc e =>
                    match profile_from_dict e now with
                    | Except.ok p => upsertProfile acc p.name p
                    | Except.error _ => acc) [],
                 fs)
          | none => Except.ok ([], fs)
          | some _ => Except.error PyErr.valueError
      | _ => Except.error PyErr.attributeError

/-- `_prune_backups`: every backup file matches the `profiles-*.json`
glob; the newest `maxBackups` (by mtime, i.e. list order) survive. -/
def pruneBackups (backups : List (String × FileContent)) (maxBackups : ℕ) :
    List (String × FileContent) :=
  backups.drop (backups.length - maxBackups)

/-- Embedding of `BallisticProfileStorage._write_profiles`: payload with
version marker and name-sorted profiles, preceded by a rotating backup of
the previous file state when one exists. -/
def write_profiles (fs : ProfileStoreFS) (profiles : List (String × BallisticProfile))
    (maxBackups : ℕ) (now : String) : ProfileStoreFS :=
  let sortedNames := (profiles.map Prod.fst).mergeSort (fun a b => decide (a ≤ b))
  let payload := JVal.jobj
    [("version", JVal.jnum 1),
     ("updated_at", JVal.jstr now),
     ("profiles", JVal.jarr (sortedNames.filterMap
        (fun n => (profiles.lookup n).map profile_to_dict)))]
  let backups' := match fs.storeFile with
    | none => fs.backups
    | some content =>
        pruneBackups (fs.backups ++ [(saveBackupName now, content)]) maxBackups
  ⟨some (FileContent.validJson payload), backups'⟩

/-- Embedding of `BallisticProfileStorage.import_profiles`; `sourceDoc` is
the parsed JSON of the export file; `touch()` sets `updated_at := now`. -/
def store_import_profiles (fs : ProfileStoreFS) (sourceDoc : JVal) (overwrite : Bool)
    (maxBackups : ℕ) (now : String) :
    Except PyErr (BallisticProfileImportReport × ProfileStoreFS) := do
  let (existing0, fs1) ← load_profiles fs now
  let entries ←
    (match sourceDoc with
     | JVal.jobj fields =>
         match getField fields "profiles" with
         | some (JVal.jarr xs) => Except.ok xs
         | none => Except.ok ([] : List JVal)
         | some _ => Except.error PyErr.valueError
     | _ => Except.error PyErr.attributeError)
  let st ← entries.foldlM
      (fun (st : List (String × BallisticProfile) × List String × List String × List String) e => do
        let (ex, im, sk, ov) := st
        let p ← profile_from_dict e now
        if (ex.lookup p.name).isSome then
          if overwrite then
            Except.ok (upsertProfile ex p.name { p with updated_at := now },
              im, sk, ov ++ [p.name])
          else
            Except.ok (ex, im, sk ++ [p.name], ov)
        else
          Except.ok (upsertProfile ex p.name { p with updated_at := now },
            im ++ [p.name], sk, ov))
      (existing0, [], [], [])
  let (existing, imported, skipped, overwritten) := st
  let fs2 := if imported ≠ [] ∨ overwritten ≠ [] then
      write_profiles fs1 existing maxBackups now
    else fs1
  Except.ok (⟨imported, skipped, overwritten⟩, fs2)

/-- C9: when the store file exists but is not valid JSON, `load_profiles`
returns an empty mapping without raising, a timestamped quarantine copy of
the corrupted bytes is added to the backup directory, and the corrupted
original stays in place untouched. -/
theorem corrupted_store_loads_empty_and_quarantines (fs : ProfileStoreFS)
    (raw : String) (now : String)
    (h : fs.storeFile = some (FileContent.invalidJson raw)) :
    load_profiles fs now =
      Except.ok ([],
        ⟨fs.storeFile,
         fs.backups ++ [(quarantineName now, FileContent.invalidJson raw)]⟩) := by
  unfold load_profiles
  rw [h]

/-- Witness for C9 on a concrete corrupted store. -/
theorem corrupted_store_loads_empty_and_quarantines_witness :
    (⟨some (FileContent.invalidJson "not json"), []⟩ : ProfileStoreFS).storeFile =
      some (FileContent.invalidJson "not json")
    ∧ load_profiles ⟨some (FileContent.invalidJson "not json"), []⟩ "t0" =
      Except.ok ([],
        ⟨some (FileContent.invalidJson "not json"),
         [(quarantineName "t0", FileContent.invalidJson "not json")]⟩) :=
  ⟨rfl,
   corrupted_store_loads_empty_and_quarantines
     ⟨some (FileContent.invalidJson "not json"), []⟩ "not json" "t0" rfl⟩

/-- C8: importing an export whose single profile's name already exists in
the store, with `overwrite = False`, reports
`imported = [], skipped = [name], overwritten = []` and leaves the on-disk
state untouched: no rewrite of the store file and no new backup. -/
theorem import_existing_name_skipped (fs : ProfileStoreFS)
    (existing : List (String × BallisticProfile)) (now : String)
    (hload : load_profiles fs now = Except.ok (existing, fs))
    (srcFields : List (String × JVal)) (entry : JVal)
    (hsrc : getField srcFields "profiles" = some (JVal.jarr [entry]))
    (profile : BallisticProfile)
    (hparse : profile_from_dict entry now = Except.ok profile)
    (hmem : (existing.lookup profile.name).isSome = true)
    (maxBackups : ℕ) :
    store_import_profiles fs (JVal.jobj srcFields) false maxBackups now =
      Except.ok (⟨[], [profile.name], []⟩, fs) := by
  unfold store_import_profiles
  rw [hload]
  simp only [Bind.bind, Except.bind, hsrc, List.foldlM_cons, List.foldlM_nil, hparse,
    hmem, if_true, Bool.false_eq_true, if_false, pure, Except.pure, ite_true, ite_false]
  simp

/-- A concrete stored profile (integer-valued fields) for the storage
witnesses. -/
def profileW : BallisticProfile :=
  ⟨"Deer", ⟨"FGM", ".308", 168, 820, 1, DragModel.g1, 8, 51, 78⟩,
   ⟨15, 1013, 50, 0, 0, 0⟩, 100, 800, 1, "",
   "2024-01-01T00:00:00+00:00", "2024-01-01T00:00:00+00:00"⟩

/-- A concrete on-disk store holding exactly `profileW`. -/
def fsW : ProfileStoreFS :=
  ⟨some (FileContent.validJson (JVal.jobj
    [("version", JVal.jnum 1),
     ("updated_at", JVal.jstr "2024-01-01T00:00:00+00:00"),
     ("profiles", JVal.jarr [profile_to_dict profileW])])), []⟩

/-- A concrete export document containing the single profile `profileW`. -/
def srcFieldsW : List (String × JVal) :=
  [("version", JVal.jnum 1),
   ("exported_at", JVal.jstr "2024-01-02T00:00:00+00:00"),
   ("profiles", JVal.jarr [profile_to_dict profileW])]

/-- Witness for C8: importing `profileW` into a store already holding it,
with overwrite off, skips it and leaves the filesystem untouched. -/
theorem import_existing_name_skipped_witness :
    load_profiles fsW "t2" = Except.ok ([("Deer", profileW)], fsW)
    ∧ getField srcFieldsW "profiles" = some (JVal.jarr [profile_to_dict profileW])
    ∧ profile_from_dict (profile_to_dict profileW) "t2" = Except.ok profileW
    ∧ (([("Deer", profileW)] : List (String × BallisticProfile)).lookup
        profileW.name).isSome = true
    ∧ store_import_profiles fsW (JVal.jobj srcFieldsW) false 5 "t2" =
        Except.ok (⟨[], [profileW.name], []⟩, fsW) :=
  ⟨rfl, rfl, rfl, rfl,
   import_existing_name_skipped fsW [("Deer", profileW)] "t2" rfl srcFieldsW
     (profile_to_dict profileW) rfl profileW rfl rfl 5⟩

/-- `int()` of an integer-valued JSON number is that integer. -/
theorem ratTrunc_intCast (z : ℤ) : ratTrunc ((z : ℚ)) = z := by
  unfold ratTrunc
  by_cases h : (z : ℚ) < 0
  · rw [if_pos h, ← Int.cast_neg, Int.floor_intCast, neg_neg]
  · rw [if_neg h, Int.floor_intCast]

/-- C7 (amended): when the store document is a JSON object already at the
target schema version whose profiles list is its own normalized form
(every entry parses and re-serializes to a Python-equal dict), the
migration returns no outcome, rewrites nothing and creates no backup. -/
theorem migration_skips_normalized_store (fs : ProfileStoreFS)
    (fields : List (String × JVal)) (target : ℤ) (now : String)
    (hstore : fs.storeFile = some (FileContent.validJson (JVal.jobj fields)))
    (hver : getField fields "version" = some (JVal.jnum (target : ℚ)))
    (profilesRaw : List JVal)
    (hprof : getField fields "profiles" = some (JVal.jarr profilesRaw))
    (normalized : List JVal)
    (hmapM : profilesRaw.mapM
        (fun e => (profile_from_dict e now).map profile_to_dict) =
      Except.ok normalized)
    (heq : pyEqList profilesRaw normalized = true) :
    migrate_ballistic_profile_store fs target now = Except.ok (none, fs) := by
  unfold migrate_ballistic_profile_store
  rw [hstore]
  simp only [hver, hprof, hmapM, asInt, ratTrunc_intCast, heq, Bind.bind, Except.bind,
    pure, Except.pure, bne_self_eq_false, Bool.not_true, Bool.or_false, Bool.false_or,
    ite_false, Bool.false_eq_true, if_false]

/-- A profile entry already at the target version but carrying an extra
`legacy_flag` key that normalization drops. -/
def entryC7 : JVal :=
  JVal.jobj
    [("name", JVal.jstr "Deer"),
     ("ammunition", ammunition_to_dict ⟨"FGM", ".308", 168, 820, 1, DragModel.g1, 8, 51, 78⟩),
     ("environment", environment_to_dict ⟨15, 1013, 50, 0, 0, 0⟩),
     ("zero_distance", JVal.jnum 100),
     ("max_range", JVal.jnum 800),
     ("vital_zone_diameter", JVal.jnum 1),
     ("notes", JVal.jstr ""),
     ("created_at", JVal.jstr "2024-01-01T00:00:00+00:00"),
     ("updated_at", JVal.jstr "2024-01-01T00:00:00+00:00"),
     ("legacy_flag", JVal.jnum 1)]

/-- A store document that carries the target schema version (1) but whose
single profile entry is not in normalized form. -/
def fsC7 : ProfileStoreFS :=
  ⟨some (FileContent.validJson (JVal.jobj
    [("version", JVal.jnum 1),
     ("updated_at", JVal.jstr "2024-01-01T00:00:00+00:00"),
     ("profiles", JVal.jarr [entryC7])])), []⟩

/-- Counterexample to C7 as stated: on a store already at the target
version, the migration still returns an outcome and creates a backup when
the profiles list differs from its normalized form. -/
theorem migration_rewrites_at_target_version :
    (migrate_ballistic_profile_store fsC7 1 "t1").map
      (fun r => (r.1.isSome, r.2.backups.length)) = Except.ok (true, 1) := rfl

/-- Witness for C7 (amended) on a store whose single entry is exactly its
normalized serialization. -/
theorem migration_skips_normalized_store_witness :
    fsW.storeFile = some (FileContent.validJson (JVal.jobj
      [("version", JVal.jnum 1),
       ("updated_at", JVal.jstr "2024-01-01T00:00:00+00:00"),
       ("profiles", JVal.jarr [profile_to_dict profileW])]))
    ∧ getField
        [("version", JVal.jnum 1),
         ("updated_at", JVal.jstr "2024-01-01T00:00:00+00:00"),
         ("profiles", JVal.jarr [profile_to_dict profileW])] "version" =
      some (JVal.jnum ((1 : ℤ) : ℚ))
    ∧ getField
        [("version", JVal.jnum 1),
         ("updated_at", JVal.jstr "2024-01-01T00:00:00+00:00"),
         ("profiles", JVal.jarr [profile_to_dict profileW])] "profiles" =
      some (JVal.jarr [profile_to_dict profileW])
    ∧ ([profile_to_dict profileW].mapM
        (fun e => (profile_from_dict e "t3").map profile_to_dict) =
      Except.ok [profile_to_dict profileW])
    ∧ pyEqList [profile_to_dict profileW] [profile_to_dict profileW] = true
    ∧ migrate_ballistic_profile_store fsW 1 "t3" = Except.ok (none, fsW) := by
  refine ⟨rfl, ?_, rfl, rfl, ?_, ?_⟩
  · norm_num [getField]
  · rfl
  · exact migration_skips_normalized_store fsW _ 1 "t3" rfl (by norm_num [getField])
      _ rfl _ rfl rfl

/-- A metric describing a single diagnostic reading
(`SensorMetric` dataclass, `sensor_diagnostics.py`). -/
structure SensorMetric where
  label : String
  value : String
  status : String
  hint : String
deriving DecidableEq, Repr

/-- Snapshot of diagnostics for a paired device
(`SensorDiagnosticSnapshot` dataclass, `sensor_diagnostics.py`). -/
structure SensorDiagnosticSnapshot where
  device_id : String
  status : String
  signal_quality : ℤ
  battery_level : ℤ
  metrics : List SensorMetric
  alerts : List String
  calibration_recommended : Bool
  last_calibrated : Option String
deriving DecidableEq, Repr

/-- Modelled from the spec: the `AdaptiveBallisticAdvisor` class is
referenced by `tests/test_adaptive_ballistics.py` but absent from the
sources; its sensor context holds the most recent typed value per metric
field, each "unknown" until ingested. -/
structure SensorContext where
  temperature : Option ℚ
  humidity : Option ℚ
  wind_speed : Option ℚ
  wind_direction : Option ℚ
  pressure : Option ℚ
  range_offset : Option ℚ
  inclination_drift : Option ℚ
deriving DecidableEq, Repr

/-- Modelled from the spec: `clear_sensor_context()` resets all ingested
sensor state to "unknown". -/
def clear_sensor_context : SensorContext :=
  ⟨none, none, none, none, none, none, none⟩

/-- Decimal digits folded into a natural number. -/
def natOfDigits (l : List Char) : ℕ :=
  l.foldl (fun acc c => acc * 10 + (c.toNat - 48)) 0

/-- Modelled from the spec: the small parser converting a metric's textual
value such as "6.4 m/s" or "+0.6 yd" into a typed number — optional sign,
decimal digits, optional fraction, with the unit suffix stripped. -/
def parseMetricValue (text : String) : Option ℚ :=
  let cs := text.toList
  let sgn : ℤ := match cs with
    | '-' :: _ => -1
    | _ => 1
  let cs1 := match cs with
    | '+' :: rest => rest
    | '-' :: rest => rest
    | _ => cs
  let (ip, cs2) := cs1.span Char.isDigit
  if ip.isEmpty then none
  else
    match cs2 with
    | '.' :: rest =>
        let (fp, _) := rest.span Char.isDigit
        some (mkRat (sgn * ((natOfDigits ip * 10 ^ fp.length + natOfDigits fp : ℕ) : ℤ))
          (10 ^ fp.length))
    | _ => some (mkRat (sgn * ((natOfDigits ip : ℕ) : ℤ)) 1)

/-- Modelled from the spec: one metric folded into the sensor context —
recognized labels update their field, unrecognized or unparseable metrics
are ignored, never errors. -/
def applyMetric (ctx : SensorContext) (m : SensorMetric) : SensorContext :=
  match parseMetricValue m.value with
  | none => ctx
  | some v =>
      if m.label = "Ambient temperature" then { ctx with temperature := some v }
      else if m.label = "Relative humidity" then { ctx with humidity := some v }
      else if m.label = "Wind speed" then { ctx with wind_speed := some v }
      else if m.label = "Wind direction" then { ctx with wind_direction := some v }
      else if m.label = "Barometric pressure" then { ctx with pressure := some v }
      else if m.label = "Range offset" then { ctx with range_offset := some v }
      else if m.label = "Inclination drift" then { ctx with inclination_drift := some v }
      else ctx

/-- Modelled from the spec: `ingest_sensor_snapshot` parses each labeled
metric in order, keeping the most recent value per field. -/
def ingest_sensor_snapshot (ctx : SensorContext)
    (snapshot : SensorDiagnosticSnapshot) : SensorContext :=
  snapshot.metrics.foldl applyMetric ctx

/-- Advisor output (`Suggestion`): focus category, severity, human-readable
recommendation and justification. -/
structure Suggestion where
  focus : String
  severity : String
  recommendation : String
  justification : String
deriving DecidableEq, Repr

/-- Modelled from the spec: the Crosswind branch — severity "warning" when
the sensed wind differs from the baseline by at least 3 m/s, with an MOA
hold recommendation and a justification citing the raw sensed reading. -/
def windSuggestions (ctx : SensorContext) (baseline : EnvironmentalData ℚ) :
    List Suggestion :=
  match ctx.wind_speed with
  | none => []
  | some ws =>
      if (3 : ℚ) ≤ |ws - baseline.wind_speed| then
        [⟨"Crosswind", "warning",
          "Hold " ++ fmtQ (ws - baseline.wind_speed) ++ " MOA into the wind.",
          "Sensed wind " ++ fmtQ ws ++ " m/s diverges from the baseline " ++
            fmtQ baseline.wind_speed ++ " m/s."⟩]
      else []

/-- Modelled from the spec: the Environment branch — emitted when sensed
temperature, humidity or pressure diverge appreciably from the baseline,
naming the diverging fields and describing the drop effect. -/
def envSuggestions (ctx : SensorContext) (baseline : EnvironmentalData ℚ) :
    List Suggestion :=
  let tdiv := match ctx.temperature with
    | some t => if (5 : ℚ) ≤ |t - baseline.temperature| then ["temperature"] else []
    | none => []
  let hdiv := match ctx.humidity with
    | some h => if (15 : ℚ) ≤ |h - baseline.humidity| then ["humidity"] else []
    | none => []
  let pdiv := match ctx.pressure with
    | some p => if (10 : ℚ) ≤ |p - baseline.pressure| then ["pressure"] else []
    | none => []
  let diverging := tdiv ++ hdiv ++ pdiv
  if diverging.isEmpty then []
  else
    [⟨"Environment", "info",
      "Recompute the trajectory with the sensed atmosphere before the next shot.",
      "Sensed " ++ String.intercalate ", " diverging ++
        " diverge from the baseline; the air-density change will flatten or steepen drop."⟩]

/-- Modelled from the spec: the Range Calibration branch — severity
"warning" when the rangefinder's range offset magnitude exceeds the small
tolerance (0.5 units), naming the offset magnitude. -/
def rangeSuggestions (ctx : SensorContext) : List Suggestion :=
  match ctx.range_offset with
  | none => []
  | some off =>
      if mkRat 1 2 < |off| then
        [⟨"Range Calibration", "warning",
          "Apply a range offset correction of " ++ fmtQ off ++
            " units and recalibrate the rangefinder zero.",
          "Rangefinder reported a range offset of " ++ fmtQ off ++ " units."⟩]
      else []

/-- Modelled from the spec: the Cant Error branch — severity "warning"
when the inclination drift magnitude exceeds 0.5 degrees, citing the
drift value. -/
def cantSuggestions (ctx : SensorContext) : List Suggestion :=
  match ctx.inclination_drift with
  | none => []
  | some drift =>
      if mkRat 1 2 < |drift| then
        [⟨"Cant Error", "warning",
          "Level the rifle before the next shot.",
          "Inclination drift of " ++ fmtQ drift ++ " deg exceeds the tolerance."⟩]
      else []

/-- Modelled from the spec: `generate_suggestions(result)` — the ranked
list of correction suggestions (wind, environment, range calibration,
cant), each branch omitted when below threshold. -/
def generate_suggestions (ctx : SensorContext) (baseline : EnvironmentalData ℚ)
    (result : BallisticsResult ℚ) : List Suggestion :=
  windSuggestions ctx baseline ++ envSuggestions ctx baseline ++
    rangeSuggestions ctx ++ cantSuggestions ctx

/-- Chars `pat` are a prefix of the text. -/
def isPrefixOfChars : List Char → List Char → Bool
  | [], _ => true
  | _ :: _, [] => false
  | a :: as, b :: bs => a == b && isPrefixOfChars as bs

/-- `pat` occurs contiguously somewhere in the text. -/
def containsSub (pat : List Char) : List Char → Bool
  | [] => pat.isEmpty
  | c :: rest => isPrefixOfChars pat (c :: rest) || containsSub pat rest

/-- Substring test: Python's `pat in s`. -/
def strContainsSub (s pat : String) : Bool :=
  containsSub pat.toList s.toList

/-- Metrics other than "Range offset" never touch the stored range
offset. -/
theorem foldl_applyMetric_preserves_range_offset :
    ∀ (l : List SensorMetric) (c : SensorContext),
      (∀ m ∈ l, m.label ≠ "Range offset") →
      (l.foldl applyMetric c).range_offset = c.range_offset := by
  intro l
  induction l with
  | nil => intro c _; rfl
  | cons m rest ih =>
    intro c hl
    rw [List.foldl_cons, ih _ (fun x hx => hl x (List.mem_cons_of_mem _ hx))]
    have hm : m.label ≠ "Range offset" := hl m (List.mem_cons_self _ _)
    unfold applyMetric
    cases hp : parseMetricValue m.value with
    | none => rfl
    | some v =>
      simp only []
      split_ifs <;> rfl

/-- C1: ingesting a rangefinder snapshot whose "Range offset" metric reads
"+0.6 yd" (with no later snapshot metric overriding that label) makes
`generate_suggestions` emit a "Range Calibration" suggestion of severity
"warning" whose recommendation text contains the offset value 0.6 —
regardless of prior sensor context, baseline environment and result. -/
theorem range_offset_triggers_calibration_suggestion
    (ctx0 : SensorContext) (baseline : EnvironmentalData ℚ)
    (result : BallisticsResult ℚ) (snapshot : SensorDiagnosticSnapshot)
    (pre post : List SensorMetric) (st ht : String)
    (hmetrics : snapshot.metrics =
      pre ++ (⟨"Range offset", "+0.6 yd", st, ht⟩ : SensorMetric) :: post)
    (hpost : ∀ m ∈ post, m.label ≠ "Range offset") :
    ∃ s ∈ generate_suggestions (ingest_sensor_snapshot ctx0 snapshot) baseline result,
      s.focus = "Range Calibration" ∧ s.severity = "warning"
        ∧ strContainsSub s.recommendation "0.6" = true := by
  have hoff : (ingest_sensor_snapshot ctx0 snapshot).range_offset =
      some (mkRat 6 10) := by
    unfold ingest_sensor_snapshot
    rw [hmetrics, List.foldl_append, List.foldl_cons]
    rw [foldl_applyMetric_preserves_range_offset post _ hpost]
    rfl
  have hrange : rangeSuggestions (ingest_sensor_snapshot ctx0 snapshot) =
      [⟨"Range Calibration", "warning",
        "Apply a range offset correction of " ++ fmtQ (mkRat 6 10) ++
          " units and recalibrate the rangefinder zero.",
        "Rangefinder reported a range offset of " ++ fmtQ (mkRat 6 10) ++ " units."⟩] := by
    unfold rangeSuggestions
    rw [hoff]
    rfl
  refine ⟨⟨"Range Calibration", "warning",
    "Apply a range offset correction of " ++ fmtQ (mkRat 6 10) ++
      " units and recalibrate the rangefinder zero.",
    "Rangefinder reported a range offset of " ++ fmtQ (mkRat 6 10) ++ " units."⟩,
    ?_, rfl, rfl, ?_⟩
  · unfold generate_suggestions
    refine List.mem_append.mpr (Or.inl (List.mem_append.mpr (Or.inr ?_)))
    rw [hrange]
    exact List.mem_singleton.mpr rfl
  · rfl

/-- The concrete rangefinder snapshot from the spec's scenario. -/
def snapshotC1 : SensorDiagnosticSnapshot :=
  ⟨"rangefinder-1", "operational", 78, 88,
   [⟨"Range offset", "+0.6 yd", "nominal", ""⟩,
    ⟨"Inclination drift", "-0.72 deg", "nominal", ""⟩],
   [], true, some "2023-11-01"⟩

/-- Witness for C1 on the concrete rangefinder snapshot against a fresh
sensor context. -/
theorem range_offset_triggers_calibration_suggestion_witness :
    snapshotC1.metrics =
      [] ++ (⟨"Range offset", "+0.6 yd", "nominal", ""⟩ : SensorMetric) ::
        [⟨"Inclination drift", "-0.72 deg", "nominal", ""⟩]
    ∧ (∀ m ∈ [(⟨"Inclination drift", "-0.72 deg", "nominal", ""⟩ : SensorMetric)],
        m.label ≠ "Range offset")
    ∧ ∃ s ∈ generate_suggestions
          (ingest_sensor_snapshot clear_sensor_context snapshotC1)
          ⟨15, 1013, 55, 450, 0, 0⟩ resultC4,
        s.focus = "Range Calibration" ∧ s.severity = "warning"
          ∧ strContainsSub s.recommendation "0.6" = true :=
  ⟨rfl, by decide,
   range_offset_triggers_calibration_suggestion clear_sensor_context
     ⟨15, 1013, 55, 450, 0, 0⟩ resultC4 snapshotC1 []
     [⟨"Inclination drift", "-0.72 deg", "nominal", ""⟩] "nominal" "" rfl (by decide)⟩

end HuntPro
